import Mathlib

/-!
Verification of the vueAppBackend lesson-booking HTTP backend.

The repository contains three near-duplicate server revisions:
  * Revision A: `src/server.js` — subject-keyed updates, orders carry `lessonSubjects`,
    logger middleware first, then `imageCheckMiddleware`, then static `/images`, then routes.
  * Revision B: the server in `src/unnamed/part_000` — id-keyed updates (`Number(req.params.id)`),
    orders carry `lessonIDs`, logger first, then image check, then static, then routes
    (including a `GET /images/:filename` route).
  * Revision C: `src/unnamed/part_001` — frontend static middleware registered BEFORE the
    logger, then a `GET /` route, `GET /images/:filename` and `GET /lessons`.

We shallowly embed the JSON values flowing through the handlers, the document-store
operations (`find`, `insertOne`, `updateOne` with `$set`) used by the code, and the
handlers themselves, and prove the specification claims about them.
-/

/-- JavaScript numbers as used by the code: either NaN (produced e.g. by
`Number("abc")`) or an ordinary numeric value.  The code only ever compares and
stores integral numbers, so the real values are modelled as integers.
MongoDB query equality treats NaN as equal to NaN, which the derived
decidable equality reproduces. -/
inductive JsNum where
  | nan : JsNum
  | real : Int → JsNum
deriving DecidableEq, Repr

/-- Primitive JSON/BSON values appearing in request bodies and stored documents.
`date t` models a JavaScript `Date` by its timestamp. -/
inductive JsPrim where
  | undef : JsPrim
  | nullV : JsPrim
  | boolV : Bool → JsPrim
  | numV : JsNum → JsPrim
  | strV : String → JsPrim
  | date : Nat → JsPrim
deriving DecidableEq, Repr

/-- Values stored in document fields and request-body fields: primitives, one
level of arrays (as used by `lessonSubjects` / `lessonIDs`) and one level of
nested objects (the opaque `items` payload).  Deeper nesting never occurs in
the code paths the claims are about. -/
inductive JsVal where
  | prim : JsPrim → JsVal
  | arr : List JsPrim → JsVal
  | obj : List (String × JsPrim) → JsVal
deriving DecidableEq, Repr

/-- A document (or parsed JSON request body): an association list of fields. -/
abbrev Doc := List (String × JsVal)

/-- Look up a field of a document (first binding wins, as in a JS object). -/
def getField? : Doc → String → Option JsVal
  | [], _ => none
  | p :: d, k => if p.1 = k then some p.2 else getField? d k

/-- JavaScript truthiness, as used by the `!name || !phone` validation:
`undefined`, `null`, `false`, `0`, `NaN` and `""` are falsy; arrays, objects
and dates are truthy. -/
def truthy : JsVal → Bool
  | JsVal.prim JsPrim.undef => false
  | JsVal.prim JsPrim.nullV => false
  | JsVal.prim (JsPrim.boolV b) => b
  | JsVal.prim (JsPrim.numV JsNum.nan) => false
  | JsVal.prim (JsPrim.numV (JsNum.real n)) => decide (n ≠ 0)
  | JsVal.prim (JsPrim.strV s) => decide (s ≠ "")
  | JsVal.prim (JsPrim.date _) => true
  | JsVal.arr _ => true
  | JsVal.obj _ => true

/-- The `Array.isArray` test. -/
def isArray : JsVal → Bool
  | JsVal.arr _ => true
  | _ => false

/-- The `x.length === 0` test of the validation, evaluated on arrays
(the code only reaches it after `Array.isArray` has succeeded). -/
def arrLenZero : JsVal → Bool
  | JsVal.arr xs => xs.isEmpty
  | _ => false

/-- Reading a field out of a destructured request body: a missing field
destructures to `undefined`. -/
def bodyGet (body : Doc) (k : String) : JsVal :=
  (getField? body k).getD (JsVal.prim JsPrim.undef)

/-- The characters JavaScript's `String.prototype.trim` strips (the ASCII
part; the exotic Unicode space code points never occur in the inputs the
claims are about). -/
def isJsWhitespace (c : Char) : Bool :=
  c = ' ' || c = '\t' || c = '\n' || c = '\r' || c = '\x0b' || c = '\x0c'

/-- Model of JavaScript `s.trim()`: strip leading and trailing whitespace. -/
def jsTrim (s : String) : String :=
  String.mk (((s.toList.dropWhile isJsWhitespace).reverse.dropWhile isJsWhitespace).reverse)

/-- Does the first list start the second one? -/
def leadsWith : List Char → List Char → Bool
  | [], _ => true
  | _ :: _, [] => false
  | c :: p, x :: s => c = x && leadsWith p s

/-- Model of JavaScript `s.startsWith(lead)`. -/
def jsStartsWith (s lead : String) : Bool :=
  leadsWith lead.toList s.toList

/-- Drop the first `n` characters of a string (used to model
`req.path.replace("/images/", "")` once the prefix is pinned to the front,
and Express's stripping of a route mount path). -/
def strDrop (s : String) (n : Nat) : String :=
  String.mk (s.toList.drop n)

/-- Read an unsigned decimal digit string. -/
def digitsToNat? (l : List Char) : Option Nat :=
  if l.isEmpty then none
  else l.foldl (fun acc? c =>
    acc?.bind (fun acc => if c.isDigit then some (acc * 10 + (c.toNat - 48)) else none))
    (some 0)

/-- Signed decimal integer literals. -/
def jsIntOfChars? : List Char → Option Int
  | '-' :: rest => (digitsToNat? rest).map (fun n => -(Int.ofNat n))
  | '+' :: rest => (digitsToNat? rest).map Int.ofNat
  | l => (digitsToNat? l).map Int.ofNat

/-- Model of the JavaScript `Number()` coercion on the integer fragment of
strings: whitespace is trimmed, the empty string coerces to `0`, integer
literals to their value, and anything else (such as `"abc"`) to `NaN`.
Fractional, exponent and hexadecimal literals never occur as lesson ids and
are outside the modelled fragment. -/
def jsNumberOfString (s : String) : JsNum :=
  let t := jsTrim s
  if t = "" then JsNum.real 0
  else
    match jsIntOfChars? t.toList with
    | some n => JsNum.real n
    | none => JsNum.nan

/-! ## Document-store operations

The store client (MongoDB driver) is an external collaborator; the operations
the handlers invoke are modelled with the semantics of a generic document
store: `find` returns the collection in store order, `insertOne` appends a
document (stamping the generated id into it), and `updateOne` with `$set`
rewrites the named fields of the first matching document. -/

/-- Overwrite field `k` of a document with `v`, adding the field if absent
(the effect of a single `$set` entry). -/
def setField : Doc → String → JsVal → Doc
  | [], k, v => [(k, v)]
  | p :: d, k, v => if p.1 = k then (k, v) :: d else p :: setField d k v

/-- Apply a `$set` update document: overwrite each named field in turn. -/
def applySet (u : Doc) (d : Doc) : Doc :=
  u.foldl (fun acc p => setField acc p.1 p.2) d

/-- The counts reported by the driver for `updateOne`. -/
structure UpdateResult where
  matchedCount : Nat
  modifiedCount : Nat
deriving DecidableEq, Repr

/-- Driver `updateOne(filter, {$set: u})`: rewrite the first document satisfying the
filter; `matchedCount` is 1 when a document matched, and `modifiedCount`
is 1 only when the rewrite actually changed the document. -/
def updateOne (col : List Doc) (filt : Doc → Bool) (u : Doc) : List Doc × UpdateResult :=
  match col with
  | [] => ([], ⟨0, 0⟩)
  | d :: rest =>
    if filt d then
      let d2 := applySet u d
      (d2 :: rest, ⟨1, if d2 = d then 0 else 1⟩)
    else
      let r := updateOne rest filt u
      (d :: r.1, r.2)

/-- Driver `insertOne`: append the document, with the driver-generated id stamped
into it, and report the id. -/
def insertOne (col : List Doc) (d : Doc) (oid : String) : List Doc × String :=
  (col ++ [d ++ [("_id", JsVal.prim (JsPrim.strV oid))]], oid)

/-! ## Regular-expression model

`GET /search` builds `new RegExp(escapeRegex(q), 'i')` and hands it to the
store as a filter on the `subject` / `location` fields.  We model the
fragment of ECMAScript regular expressions actually reachable from the code:
patterns whose tokens are all literals.  An unescaped syntax character
lexes to an operator token; a backslash followed by a syntax character is an
identity escape and lexes to a literal.  Other escape sequences (`\d`, `\b`,
…) and operator semantics are outside the fragment — `escapeRegex` never
produces them, which we prove — and make the test come out `false`. -/

/-- The characters the ECMAScript pattern grammar treats as syntax, exactly
the character class of `escapeRegex` in the source:
`/[.*+?^${}()|[\]\\]/`. -/
def regexSpecialChars : List Char :=
  ['.', '*', '+', '?', '^', '$', '{', '}', '(', ')', '|', '[', ']', '\\']

/-- Regex pattern tokens: literal characters and unescaped syntax characters. -/
inductive RTok where
  | lit : Char → RTok
  | oper : Char → RTok
deriving DecidableEq, Repr

/-- Lex a pattern source string into tokens.  `none` marks a pattern outside
the modelled fragment (a dangling backslash or a non-identity escape). -/
def lexRegex : List Char → Option (List RTok)
  | [] => some []
  | c :: rest =>
    if c = '\\' then
      match rest with
      | [] => none
      | c2 :: rest2 =>
        if c2 ∈ regexSpecialChars then (lexRegex rest2).map (fun ts => RTok.lit c2 :: ts)
        else none
    else
      (lexRegex rest).map (fun ts =>
        (if c ∈ regexSpecialChars then RTok.oper c else RTok.lit c) :: ts)

/-- Extract the character sequence of an all-literal token list; `none` when
any operator token is present. -/
def litChars? : List RTok → Option (List Char)
  | [] => some []
  | RTok.lit c :: ts => (litChars? ts).map (fun cs => c :: cs)
  | RTok.oper _ :: _ => none

/-- A pattern string together with the literal text it denotes, when it lies
in the all-literal fragment. -/
def litPattern? (pat : String) : Option (List Char) :=
  (lexRegex pat.toList).bind litChars?

/-- Does `p` occur contiguously anywhere in `s`? -/
def occursIn : List Char → List Char → Bool
  | p, [] => leadsWith p []
  | p, x :: t => leadsWith p (x :: t) || occursIn p t

/-- ASCII lower-casing of a character list (the `'i'` flag; non-ASCII case
folding is outside the modelled fragment). -/
def lowerL (l : List Char) : List Char := l.map Char.toLower

/-- Case-insensitive substring occurrence of `p` in `s`. -/
def substrI (p s : String) : Bool := occursIn (lowerL p.toList) (lowerL s.toList)

/-- Model of `new RegExp(pat, 'i').test(s)` (the matching the store performs
for a `$regex`-valued field filter) on the all-literal fragment: such a
pattern matches iff its literal text occurs in `s` case-insensitively.
Patterns outside the fragment are not modelled and test `false`; the code
never produces one (`litPattern?_escapeRegex`). -/
def regexTestI (pat s : String) : Bool :=
  match litPattern? pat with
  | some cs => occursIn (lowerL cs) (lowerL s.toList)
  | none => false

/-- The `escapeRegex` helper from the source:
`(s) => s.replace(/[.*+?^${}()|[\]\\]/g, '\\$&')` — prefix every regex
syntax character with a backslash. -/
def escapeRegex (s : String) : String :=
  String.mk (s.toList.flatMap (fun c =>
    if c ∈ regexSpecialChars then ['\\', c] else [c]))

/-! ## HTTP responses and route handlers -/

/-- Response bodies the handlers produce: a JSON object, a JSON array of
documents, plain text, or raw file bytes. -/
inductive RespBody where
  | jsonB : Doc → RespBody
  | jsonArr : List Doc → RespBody
  | textB : String → RespBody
  | fileB : List Nat → RespBody
deriving DecidableEq, Repr

/-- An HTTP response: status code and body. -/
structure Resp where
  status : Nat
  body : RespBody
deriving DecidableEq, Repr

/-- Handler of `GET /lessons` (all revisions): return every lesson document in store
order. -/
def lessonsHandler (lessons : List Doc) : Resp :=
  Resp.mk 200 (RespBody.jsonArr lessons)

/-- The store-side test of the `/search` filter
`{$or: [{subject: regex}, {location: regex}]}` on one document: a regex
field filter matches documents whose field holds a matching string
(non-string fields do not match). -/
def docMatchesSearch (pat : String) (d : Doc) : Bool :=
  (match getField? d "subject" with
   | some (JsVal.prim (JsPrim.strV s)) => regexTestI pat s
   | _ => false) ||
  (match getField? d "location" with
   | some (JsVal.prim (JsPrim.strV s)) => regexTestI pat s
   | _ => false)

/-- The documents `GET /search` returns (both revisions with a search route
have identical handler code): `q = (req.query.q || '').trim()`; an empty
trimmed query leaves the filter `{}` (match all), otherwise the filter is a
case-insensitive regex over the escaped query. -/
def searchResults (lessons : List Doc) (qp : Option String) : List Doc :=
  let q := jsTrim (qp.getD "")
  if q.toList.length > 0 then
    lessons.filter (docMatchesSearch (escapeRegex q))
  else lessons

/-- Handler of `GET /search` (revisions A and B, identical code). -/
def searchHandler (lessons : List Doc) (qp : Option String) : Resp :=
  Resp.mk 200 (RespBody.jsonArr (searchResults lessons qp))

/-- The 400 response of `POST /orders` validation. -/
def invalidOrderResp : Resp :=
  Resp.mk 400 (RespBody.jsonB [("error", JsVal.prim (JsPrim.strV "Invalid order data"))])

/-- Handler of `POST /orders` in revision A (`src/server.js`): destructure
`{name, phone, lessonSubjects, spaces, items}`, reject falsy name/phone or a
missing/non-array/empty `lessonSubjects` before any store access, otherwise
insert one order document stamped with the server time `now` and answer 201
with the driver-assigned id `oid`. -/
def postOrdersA (orders : List Doc) (body : Doc) (now : Nat) (oid : String) :
    List Doc × Resp :=
  let name := bodyGet body "name"
  let phone := bodyGet body "phone"
  let lessonSubjects := bodyGet body "lessonSubjects"
  let spaces := bodyGet body "spaces"
  let items := bodyGet body "items"
  if !truthy name || !truthy phone || !isArray lessonSubjects || arrLenZero lessonSubjects then
    (orders, invalidOrderResp)
  else
    let ins := insertOne orders
      [("name", name), ("phone", phone), ("lessonSubjects", lessonSubjects),
       ("spaces", spaces), ("items", items), ("createdAt", JsVal.prim (JsPrim.date now))] oid
    (ins.1, Resp.mk 201 (RespBody.jsonB
      [("message", JsVal.prim (JsPrim.strV "Order created successfully")),
       ("orderId", JsVal.prim (JsPrim.strV ins.2))]))

/-- Handler of `POST /orders` in revision B (`src/unnamed/part_000`): identical to
revision A except the lesson-reference field is `lessonIDs`. -/
def postOrdersB (orders : List Doc) (body : Doc) (now : Nat) (oid : String) :
    List Doc × Resp :=
  let name := bodyGet body "name"
  let phone := bodyGet body "phone"
  let lessonIDs := bodyGet body "lessonIDs"
  let spaces := bodyGet body "spaces"
  let items := bodyGet body "items"
  if !truthy name || !truthy phone || !isArray lessonIDs || arrLenZero lessonIDs then
    (orders, invalidOrderResp)
  else
    let ins := insertOne orders
      [("name", name), ("phone", phone), ("lessonIDs", lessonIDs),
       ("spaces", spaces), ("items", items), ("createdAt", JsVal.prim (JsPrim.date now))] oid
    (ins.1, Resp.mk 201 (RespBody.jsonB
      [("message", JsVal.prim (JsPrim.strV "Order created successfully")),
       ("orderId", JsVal.prim (JsPrim.strV ins.2))]))

/-- The 400 response of the `PUT /lessons/...` body validation. -/
def noUpdateDataResp : Resp :=
  Resp.mk 400 (RespBody.jsonB [("error", JsVal.prim (JsPrim.strV "No update data provided"))])

/-- The 404 response when the update filter matches no lesson. -/
def lessonNotFoundResp : Resp :=
  Resp.mk 404 (RespBody.jsonB [("error", JsVal.prim (JsPrim.strV "Lesson not found"))])

/-- The 200 response of a successful update, reporting `modifiedCount`. -/
def lessonUpdatedResp (modified : Nat) : Resp :=
  Resp.mk 200 (RespBody.jsonB
    [("message", JsVal.prim (JsPrim.strV "Lesson updated successfully")),
     ("updatedCount", JsVal.prim (JsPrim.numV (JsNum.real (Int.ofNat modified))))])

/-- The filter `{subject: lessonSubject}` of revision A's update. -/
def subjectFilter (subject : String) (d : Doc) : Bool :=
  decide (getField? d "subject" = some (JsVal.prim (JsPrim.strV subject)))

/-- The filter `{id: lessonId}` of revision B's update, where
`lessonId = Number(req.params.id)`. -/
def idFilter (idn : JsNum) (d : Doc) : Bool :=
  decide (getField? d "id" = some (JsVal.prim (JsPrim.numV idn)))

/-- Handler of `PUT /lessons/:subject` in revision A (`src/server.js`): reject an
absent or empty body with 400 before any store access; otherwise run
`updateOne({subject}, {$set: body})`; 404 when nothing matched, else 200
with `modifiedCount`.  `body = none` models `req.body` being undefined
(the `!updateData` guard). -/
def putLessonA (lessons : List Doc) (subject : String) (body : Option Doc) :
    List Doc × Resp :=
  match body with
  | none => (lessons, noUpdateDataResp)
  | some u =>
    if u.length = 0 then (lessons, noUpdateDataResp)
    else
      let r := updateOne lessons (subjectFilter subject) u
      if r.2.matchedCount = 0 then (r.1, lessonNotFoundResp)
      else (r.1, lessonUpdatedResp r.2.modifiedCount)

/-- Handler of `PUT /lessons/:id` in revision B (`src/unnamed/part_000`): as revision A
but the path parameter is coerced with `Number()` and matched against the
`id` field. -/
def putLessonB (lessons : List Doc) (idParam : String) (body : Option Doc) :
    List Doc × Resp :=
  match body with
  | none => (lessons, noUpdateDataResp)
  | some u =>
    if u.length = 0 then (lessons, noUpdateDataResp)
    else
      let r := updateOne lessons (idFilter (jsNumberOfString idParam)) u
      if r.2.matchedCount = 0 then (r.1, lessonNotFoundResp)
      else (r.1, lessonUpdatedResp r.2.modifiedCount)

/-! ## Image serving and the middleware pipelines

The filesystem is an external collaborator, modelled as an association list
from file names to byte contents. -/

/-- A directory of files: name ↦ bytes. -/
abbrev FileDir := List (String × List Nat)

/-- Look up a file's bytes. -/
def fileBytes? (dir : FileDir) (name : String) : Option (List Nat) :=
  ((dir.find? (fun p => p.1 = name)).map (fun p => p.2))

/-- The 404 response of the image-existence check. -/
def imageNotFoundResp : Resp :=
  Resp.mk 404 (RespBody.jsonB [("error", JsVal.prim (JsPrim.strV "Image not found"))])

/-- The `imageCheckMiddleware` followed by `express.static` mounted at
`/images` (revisions A and B, identical code): requests whose path is not
under `/images/` pass through (`none`); otherwise the file name is the path
with the leading `/images/` removed (`req.path.replace` replaces the first
occurrence, which `startsWith` pins to the front), a missing file
short-circuits with the structured 404, and an existing file is served by
the static handler with its exact bytes. -/
def imagesMiddlewareA (imagesDir : FileDir) (reqPath : String) : Option Resp :=
  if jsStartsWith reqPath "/images/" then
    let filename := strDrop reqPath 8
    match fileBytes? imagesDir filename with
    | none => some imageNotFoundResp
    | some bs => some (Resp.mk 200 (RespBody.fileB bs))
  else none

/-- The `GET /images/:filename` route of revisions B and C: `fs.access`
then `res.sendFile`, or the structured 404. -/
def imagesRoute (imagesDir : FileDir) (filename : String) : Resp :=
  match fileBytes? imagesDir filename with
  | none => imageNotFoundResp
  | some bs => Resp.mk 200 (RespBody.fileB bs)

/-- An inbound HTTP request: method, original url, client ip, path, the `q`
query parameter when present, and the parsed JSON body when present. -/
structure Request where
  method : String
  url : String
  ip : String
  path : String
  q : Option String
  body : Option Doc
deriving DecidableEq, Repr

/-- The line the logger middleware prints:
`` `[${now}] ${req.method} ${req.url} from ${req.ip}` `` (the ISO timestamp
is modelled by the numeric time). -/
def logLine (now : Nat) (req : Request) : String :=
  "[" ++ toString now ++ "] " ++ req.method ++ " " ++ req.url ++ " from " ++ req.ip

/-- The two collections of the store. -/
structure StoreState where
  lessons : List Doc
  orders : List Doc
deriving DecidableEq, Repr

/-- Routing of revision A after the middleware (Express dispatches on method
and path; unmatched requests fall through to the default 404). -/
def routeA (st : StoreState) (req : Request) (now : Nat) (oid : String) :
    StoreState × Resp :=
  if req.method = "GET" && req.path = "/lessons" then
    (st, lessonsHandler st.lessons)
  else if req.method = "GET" && req.path = "/search" then
    (st, searchHandler st.lessons req.q)
  else if req.method = "POST" && req.path = "/orders" then
    let r := postOrdersA st.orders ((req.body).getD []) now oid
    ({ st with orders := r.1 }, r.2)
  else if req.method = "PUT" && jsStartsWith req.path "/lessons/" then
    let r := putLessonA st.lessons (strDrop req.path 9) req.body
    ({ st with lessons := r.1 }, r.2)
  else
    (st, Resp.mk 404 (RespBody.textB ("Cannot " ++ req.method ++ " " ++ req.path)))

/-- The full middleware pipeline of revision A (`src/server.js`): the logger
runs first for every request, then `imageCheckMiddleware` and the static
image handler, then the router.  Returns the new store state, the response,
and the log lines produced. -/
def appA (imagesDir : FileDir) (st : StoreState) (req : Request) (now : Nat)
    (oid : String) : StoreState × Resp × List String :=
  let log := [logLine now req]
  match imagesMiddlewareA imagesDir req.path with
  | some r => (st, r, log)
  | none =>
    let r := routeA st req now oid
    (r.1, r.2, log)

/-- What `express.static` mounted at the root serves for a request path:
the file whose name is the path without its leading slash, with `/` served
from `index.html` (the default index option); `none` when the directory has
no such file and the middleware passes the request on. -/
def staticLookup (dir : FileDir) (reqPath : String) : Option (List Nat) :=
  if reqPath = "/" then fileBytes? dir "index.html"
  else fileBytes? dir (strDrop reqPath 1)

/-- Routing of revision C (`src/unnamed/part_001`): `GET /` sends the
frontend index file, `GET /images/:filename` checks existence then sends the
file, `GET /lessons` lists the lessons; anything else falls through to the
default 404.  (`res.sendFile` of a missing index errors; that path is only
reachable when the static middleware did not already serve `/`, and is
modelled as the default 404.) -/
def routeC (frontendDir imagesDir : FileDir) (lessons : List Doc) (req : Request) : Resp :=
  if req.method = "GET" && req.path = "/" then
    match fileBytes? frontendDir "index.html" with
    | some bs => Resp.mk 200 (RespBody.fileB bs)
    | none => Resp.mk 404 (RespBody.textB ("Cannot " ++ req.method ++ " " ++ req.path))
  else if req.method = "GET" && jsStartsWith req.path "/images/" then
    imagesRoute imagesDir (strDrop req.path 8)
  else if req.method = "GET" && req.path = "/lessons" then
    lessonsHandler lessons
  else
    Resp.mk 404 (RespBody.textB ("Cannot " ++ req.method ++ " " ++ req.path))

/-- The middleware pipeline of revision C (`src/unnamed/part_001`): the
frontend static middleware is registered BEFORE the logger, so a request it
serves produces no log line; only requests it passes on reach the logger and
then the router. -/
def appC (frontendDir imagesDir : FileDir) (lessons : List Doc) (req : Request)
    (now : Nat) : Resp × List String :=
  match staticLookup frontendDir req.path with
  | some bs => (Resp.mk 200 (RespBody.fileB bs), [])
  | none =>
    let log := [logLine now req]
    (routeC frontendDir imagesDir lessons req, log)

/-- The valid order body of C4:
`{name: "Alice", phone: "555", lessonIDs: [1, 2], spaces: 2}`. -/
def aliceBody : Doc :=
  [("name", JsVal.prim (JsPrim.strV "Alice")),
   ("phone", JsVal.prim (JsPrim.strV "555")),
   ("lessonIDs", JsVal.arr [JsPrim.numV (JsNum.real 1), JsPrim.numV (JsNum.real 2)]),
   ("spaces", JsVal.prim (JsPrim.numV (JsNum.real 2)))]

/-! ## Store-operation lemmas -/

theorem getField?_setField (d : Doc) (k k' : String) (v : JsVal) :
    getField? (setField d k v) k' = if k = k' then some v else getField? d k' := by
  induction d with
  | nil =>
    by_cases h : k = k' <;> simp [setField, getField?, h]
  | cons p d ih =>
    by_cases hp : p.1 = k
    · by_cases h : k = k' <;>
        simp [setField, getField?, hp, h, hp.symm ▸ h]
    · have hne : ¬ (p.1 = k') ∨ ¬ (k = k') := by
        by_cases h : k = k'
        · left; rw [← h]; exact hp
        · right; exact h
      by_cases h1 : p.1 = k' <;> by_cases h2 : k = k' <;>
        simp_all [setField, getField?]

theorem applySet_single (d : Doc) (k : String) (v : JsVal) :
    applySet [(k, v)] d = setField d k v := rfl

theorem updateOne_of_no_match (col : List Doc) (filt : Doc → Bool) (u : Doc)
    (h : ∀ d ∈ col, filt d = false) :
    updateOne col filt u = (col, ⟨0, 0⟩) := by
  induction col with
  | nil => rfl
  | cons d rest ih =>
    have hd : filt d = false := h d (List.mem_cons_self d rest)
    have hrest : ∀ e ∈ rest, filt e = false := fun e he => h e (List.mem_cons_of_mem d he)
    simp [updateOne, hd, ih hrest]

theorem updateOne_of_match (col : List Doc) (filt : Doc → Bool) (u : Doc)
    (h : col.any filt = true) :
    ∃ pre d rest,
      col = pre ++ d :: rest ∧
      (∀ e ∈ pre, filt e = false) ∧
      filt d = true ∧
      updateOne col filt u =
        (pre ++ applySet u d :: rest, ⟨1, if applySet u d = d then 0 else 1⟩) := by
  induction col with
  | nil => simp at h
  | cons d0 rest0 ih =>
    by_cases hd : filt d0 = true
    · exact ⟨[], d0, rest0, rfl, by simp, hd, by simp [updateOne, hd]⟩
    · have hd' : filt d0 = false := by simpa using hd
      have hrest : rest0.any filt = true := by
        simp [List.any_cons, hd'] at h
        simpa using h
      obtain ⟨pre, d, rest, hcol, hpre, hfd, heq⟩ := ih hrest
      refine ⟨d0 :: pre, d, rest, by simp [hcol], ?_, hfd, ?_⟩
      · intro e he
        rcases List.mem_cons.mp he with he | he
        · exact he ▸ hd'
        · exact hpre e he
      · simp [updateOne, hd', heq]

/-! ## Regex-escaping lemmas: `escapeRegex` output lies in the all-literal
fragment and denotes exactly the input text. -/

theorem lexRegex_escape (l : List Char) :
    lexRegex (l.flatMap (fun c => if c ∈ regexSpecialChars then ['\\', c] else [c]))
      = some (l.map RTok.lit) := by
  induction l with
  | nil => rfl
  | cons c l ih =>
    by_cases hc : c ∈ regexSpecialChars
    · simp [hc, lexRegex, ih]
    · have hcb : ¬ c = '\\' := by
        intro h
        exact hc (h ▸ (by decide : '\\' ∈ regexSpecialChars))
      rw [lexRegex.eq_def]
      simp [hc, hcb, ih]

theorem litChars?_map_lit (l : List Char) :
    litChars? (l.map RTok.lit) = some l := by
  induction l with
  | nil => rfl
  | cons c l ih => simp [litChars?, ih]

theorem litPattern?_escapeRegex (s : String) :
    litPattern? (escapeRegex s) = some s.toList := by
  have h1 : (escapeRegex s).data
      = s.data.flatMap (fun c => if c ∈ regexSpecialChars then ['\\', c] else [c]) := rfl
  simp [litPattern?, String.toList, h1, lexRegex_escape, litChars?_map_lit]

/-- The regex the search handler builds from a query tests exactly
case-insensitive literal substring occurrence of the query. -/
theorem regexTestI_escapeRegex (p s : String) :
    regexTestI (escapeRegex p) s = substrI p s := by
  simp [regexTestI, litPattern?_escapeRegex, substrI]

theorem toList_length_pos (s : String) (h : s ≠ "") : s.toList.length > 0 := by
  rcases s with ⟨data⟩
  cases data with
  | nil => exact absurd rfl h
  | cons c cs => simp [String.toList]

/-! ## Claim theorems -/

/-- C1 (amended): for every query string whose whitespace-trimmed form is
non-empty, every regular-expression metacharacter in it is matched
literally — a lesson with string `subject` and `location` fields is
returned by `GET /search` if and only if the literal text of the trimmed
query occurs case-insensitively as a substring of its subject or its
location. -/
theorem search_treats_query_literally (col : List Doc) (q : String)
    (hq : jsTrim q ≠ "") (d : Doc) (subj loc : String)
    (hs : getField? d "subject" = some (JsVal.prim (JsPrim.strV subj)))
    (hl : getField? d "location" = some (JsVal.prim (JsPrim.strV loc))) :
    d ∈ searchResults col (some q) ↔
      d ∈ col ∧ (substrI (jsTrim q) subj = true ∨ substrI (jsTrim q) loc = true) := by
  have hlen : (jsTrim q).toList.length > 0 := toList_length_pos _ hq
  have hlen2 : 0 < (jsTrim q).length := hlen
  have hmatch : docMatchesSearch (escapeRegex (jsTrim q)) d
      = (substrI (jsTrim q) subj || substrI (jsTrim q) loc) := by
    simp [docMatchesSearch, hs, hl, regexTestI_escapeRegex]
  simp [searchResults, hlen, hlen2, List.mem_filter, hmatch]

/-- Witness for C1: with the store holding one lesson with subject `"Math"`
in `"Hendon"`, the query `"."` (a bare regex metacharacter) returns the
lesson if and only if `"."` literally occurs in a field — which it does
not, so the lesson is not returned; the query `"math"` is. -/
theorem search_treats_query_literally_witness :
    (¬ ([("subject", JsVal.prim (JsPrim.strV "Math")),
        ("location", JsVal.prim (JsPrim.strV "Hendon"))] : Doc) ∈
      searchResults
        [[("subject", JsVal.prim (JsPrim.strV "Math")),
          ("location", JsVal.prim (JsPrim.strV "Hendon"))]] (some "."))
    ∧ (([("subject", JsVal.prim (JsPrim.strV "Math")),
         ("location", JsVal.prim (JsPrim.strV "Hendon"))] : Doc) ∈
      searchResults
        [[("subject", JsVal.prim (JsPrim.strV "Math")),
          ("location", JsVal.prim (JsPrim.strV "Hendon"))]] (some "math")) := by
  constructor
  · intro hmem
    have h := (search_treats_query_literally
      [[("subject", JsVal.prim (JsPrim.strV "Math")),
        ("location", JsVal.prim (JsPrim.strV "Hendon"))]] "."
      (by decide) _ "Math" "Hendon" (by decide) (by decide)).mp hmem
    revert h
    decide
  · exact (search_treats_query_literally
      [[("subject", JsVal.prim (JsPrim.strV "Math")),
        ("location", JsVal.prim (JsPrim.strV "Hendon"))]] "math"
      (by decide) _ "Math" "Hendon" (by decide) (by decide)).mpr (by decide)

/-- Counterexample to C1 as stated: the handler trims the query before
matching, so for `q = ". "` (which contains the metacharacter `.`) the
lesson with subject `"a.b"` IS returned even though the literal text
`". "` occurs in neither its subject nor its location. -/
theorem search_claim_cex_trailing_space :
    searchResults
        [[("subject", JsVal.prim (JsPrim.strV "a.b")),
          ("location", JsVal.prim (JsPrim.strV "x"))]] (some ". ")
      = [[("subject", JsVal.prim (JsPrim.strV "a.b")),
          ("location", JsVal.prim (JsPrim.strV "x"))]]
    ∧ substrI ". " "a.b" = false ∧ substrI ". " "x" = false := by decide

/-- C2: `GET /search` with an absent, empty, or whitespace-only `q` returns
the same result set as `GET /lessons`. -/
theorem search_empty_query_eq_lessons (col : List Doc) (qp : Option String)
    (h : jsTrim (qp.getD "") = "") :
    searchHandler col qp = lessonsHandler col := by
  simp [searchHandler, lessonsHandler, searchResults, h]

/-- Witness for C2 at an absent, an empty, and a whitespace-only query. -/
theorem search_empty_query_eq_lessons_witness :
    searchHandler [[("subject", JsVal.prim (JsPrim.strV "Music"))]] none
        = lessonsHandler [[("subject", JsVal.prim (JsPrim.strV "Music"))]]
    ∧ searchHandler [[("subject", JsVal.prim (JsPrim.strV "Music"))]] (some "")
        = lessonsHandler [[("subject", JsVal.prim (JsPrim.strV "Music"))]]
    ∧ searchHandler [[("subject", JsVal.prim (JsPrim.strV "Music"))]] (some "  ")
        = lessonsHandler [[("subject", JsVal.prim (JsPrim.strV "Music"))]] :=
  ⟨search_empty_query_eq_lessons _ none (by decide),
   search_empty_query_eq_lessons _ (some "") (by decide),
   search_empty_query_eq_lessons _ (some "  ") (by decide)⟩

/-- C5: a `PUT /lessons/:ref` request with an absent or empty-object body is
rejected with the 400 response before any store operation, in both the
subject-keyed and the id-keyed revision. -/
theorem put_empty_body_rejected (col : List Doc) (ref : String) (body : Option Doc)
    (h : body = none ∨ body = some []) :
    putLessonA col ref body = (col, noUpdateDataResp)
    ∧ putLessonB col ref body = (col, noUpdateDataResp) := by
  rcases h with h | h <;> subst h <;> exact ⟨rfl, rfl⟩

/-- Witness for C5 at a concrete store and an empty body. -/
theorem put_empty_body_rejected_witness :
    putLessonA [[("subject", JsVal.prim (JsPrim.strV "Art"))]] "Art" (some [])
        = ([[("subject", JsVal.prim (JsPrim.strV "Art"))]], noUpdateDataResp)
    ∧ putLessonB [[("subject", JsVal.prim (JsPrim.strV "Art"))]] "Art" (some [])
        = ([[("subject", JsVal.prim (JsPrim.strV "Art"))]], noUpdateDataResp) :=
  put_empty_body_rejected [[("subject", JsVal.prim (JsPrim.strV "Art"))]] "Art"
    (some []) (Or.inr rfl)

/-- C3: a `POST /orders` body with a missing or falsy name, a missing or
falsy phone, or a missing / non-array / empty lesson-reference array is
rejected with 400 and the Orders collection is unchanged — in revision A
(field `lessonSubjects`) and revision B (field `lessonIDs`) alike.  The
hypothesis of each conjunct is the handler's own validation disjunction. -/
theorem orders_invalid_rejected_no_insert (orders : List Doc) (body : Doc)
    (now : Nat) (oid : String) :
    ((!truthy (bodyGet body "name") || !truthy (bodyGet body "phone")
        || !isArray (bodyGet body "lessonSubjects")
        || arrLenZero (bodyGet body "lessonSubjects")) = true →
      postOrdersA orders body now oid = (orders, invalidOrderResp))
    ∧ ((!truthy (bodyGet body "name") || !truthy (bodyGet body "phone")
        || !isArray (bodyGet body "lessonIDs")
        || arrLenZero (bodyGet body "lessonIDs")) = true →
      postOrdersB orders body now oid = (orders, invalidOrderResp)) := by
  constructor <;> intro h <;> simp only [postOrdersA, postOrdersB, h, if_true, ite_true]

/-- Witness for C3: a body missing `name` (holding only a phone and lesson
references) is rejected by both revisions with the store untouched. -/
theorem orders_invalid_rejected_no_insert_witness :
    postOrdersA [[("name", JsVal.prim (JsPrim.strV "old"))]]
        [("phone", JsVal.prim (JsPrim.strV "555")),
         ("lessonSubjects", JsVal.arr [JsPrim.strV "Math"]),
         ("lessonIDs", JsVal.arr [JsPrim.numV (JsNum.real 1)])] 5 "oid"
      = ([[("name", JsVal.prim (JsPrim.strV "old"))]], invalidOrderResp)
    ∧ postOrdersB [[("name", JsVal.prim (JsPrim.strV "old"))]]
        [("phone", JsVal.prim (JsPrim.strV "555")),
         ("lessonSubjects", JsVal.arr [JsPrim.strV "Math"]),
         ("lessonIDs", JsVal.arr [JsPrim.numV (JsNum.real 1)])] 5 "oid"
      = ([[("name", JsVal.prim (JsPrim.strV "old"))]], invalidOrderResp) := by
  have h := orders_invalid_rejected_no_insert
    [[("name", JsVal.prim (JsPrim.strV "old"))]]
    [("phone", JsVal.prim (JsPrim.strV "555")),
     ("lessonSubjects", JsVal.arr [JsPrim.strV "Math"]),
     ("lessonIDs", JsVal.arr [JsPrim.numV (JsNum.real 1)])] 5 "oid"
  exact ⟨h.1 (by decide), h.2 (by decide)⟩

/-- C4: posting the valid order body yields 201 with the (non-empty)
driver-assigned id, and exactly one order document is appended, carrying a
server-assigned `createdAt` equal to the request-handling time `now` — the
inserted fields come only from the destructured body, never a client
timestamp. -/
theorem orders_valid_created (orders : List Doc) (now : Nat) (oid : String)
    (h : oid ≠ "") :
    ∃ newDoc : Doc,
      postOrdersB orders aliceBody now oid
        = (orders ++ [newDoc],
            Resp.mk 201 (RespBody.jsonB
              [("message", JsVal.prim (JsPrim.strV "Order created successfully")),
               ("orderId", JsVal.prim (JsPrim.strV oid))]))
      ∧ getField? newDoc "createdAt" = some (JsVal.prim (JsPrim.date now))
      ∧ oid ≠ "" := by
  refine ⟨[("name", JsVal.prim (JsPrim.strV "Alice")),
           ("phone", JsVal.prim (JsPrim.strV "555")),
           ("lessonIDs", JsVal.arr [JsPrim.numV (JsNum.real 1), JsPrim.numV (JsNum.real 2)]),
           ("spaces", JsVal.prim (JsPrim.numV (JsNum.real 2))),
           ("items", JsVal.prim JsPrim.undef),
           ("createdAt", JsVal.prim (JsPrim.date now)),
           ("_id", JsVal.prim (JsPrim.strV oid))], rfl, ?_, h⟩
  simp [getField?]

/-- Witness for C4 at a concrete store, time and id. -/
theorem orders_valid_created_witness :
    ∃ newDoc : Doc,
      postOrdersB [] aliceBody 7 "65a1"
        = ([] ++ [newDoc],
            Resp.mk 201 (RespBody.jsonB
              [("message", JsVal.prim (JsPrim.strV "Order created successfully")),
               ("orderId", JsVal.prim (JsPrim.strV "65a1"))]))
      ∧ getField? newDoc "createdAt" = some (JsVal.prim (JsPrim.date 7))
      ∧ ("65a1" : String) ≠ "" :=
  orders_valid_created [] 7 "65a1" (by decide)

/-- C6: for a non-empty update body, both revisions answer 404 when no
lesson matches the identifier (leaving the store unchanged) and 200 with
the `modifiedCount` actually reported by the store when a lesson matches —
a zero count is still a 200 success. -/
theorem put_nonempty_body_statuses (col : List Doc) (ref : String) (u : Doc)
    (hu : u ≠ []) :
    ((∀ d ∈ col, subjectFilter ref d = false) →
        putLessonA col ref (some u) = (col, lessonNotFoundResp))
    ∧ (col.any (subjectFilter ref) = true →
        (putLessonA col ref (some u)).2
            = lessonUpdatedResp (updateOne col (subjectFilter ref) u).2.modifiedCount
        ∧ (putLessonA col ref (some u)).2.status = 200)
    ∧ ((∀ d ∈ col, idFilter (jsNumberOfString ref) d = false) →
        putLessonB col ref (some u) = (col, lessonNotFoundResp))
    ∧ (col.any (idFilter (jsNumberOfString ref)) = true →
        (putLessonB col ref (some u)).2
            = lessonUpdatedResp (updateOne col (idFilter (jsNumberOfString ref)) u).2.modifiedCount
        ∧ (putLessonB col ref (some u)).2.status = 200) := by
  have hlen : ¬ u.length = 0 := by simpa using hu
  refine ⟨?_, ?_, ?_, ?_⟩
  · intro hnone
    have hup := updateOne_of_no_match col (subjectFilter ref) u hnone
    simp [putLessonA, hlen, hup]
  · intro hsome
    obtain ⟨pre, d, rest, _, _, _, hup⟩ := updateOne_of_match col (subjectFilter ref) u hsome
    constructor <;> simp [putLessonA, hlen, hup, lessonUpdatedResp]
  · intro hnone
    have hup := updateOne_of_no_match col (idFilter (jsNumberOfString ref)) u hnone
    simp [putLessonB, hlen, hup]
  · intro hsome
    obtain ⟨pre, d, rest, _, _, _, hup⟩ := updateOne_of_match col (idFilter (jsNumberOfString ref)) u hsome
    constructor <;> simp [putLessonB, hlen, hup, lessonUpdatedResp]

/-- Witness for C6: a no-op update of an existing lesson (setting `spaces`
to its current value) answers 200 with `updatedCount` 0, and an update of a
missing lesson answers 404, in both revisions. -/
theorem put_nonempty_body_statuses_witness :
    ((putLessonA [[("subject", JsVal.prim (JsPrim.strV "Math")),
                   ("spaces", JsVal.prim (JsPrim.numV (JsNum.real 5)))]] "Math"
        (some [("spaces", JsVal.prim (JsPrim.numV (JsNum.real 5)))])).2
      = lessonUpdatedResp
          (updateOne [[("subject", JsVal.prim (JsPrim.strV "Math")),
                       ("spaces", JsVal.prim (JsPrim.numV (JsNum.real 5)))]]
            (subjectFilter "Math")
            [("spaces", JsVal.prim (JsPrim.numV (JsNum.real 5)))]).2.modifiedCount)
    ∧ (updateOne [[("subject", JsVal.prim (JsPrim.strV "Math")),
                   ("spaces", JsVal.prim (JsPrim.numV (JsNum.real 5)))]]
        (subjectFilter "Math")
        [("spaces", JsVal.prim (JsPrim.numV (JsNum.real 5)))]).2.modifiedCount = 0
    ∧ putLessonB [[("id", JsVal.prim (JsPrim.numV (JsNum.real 1)))]] "9"
        (some [("spaces", JsVal.prim (JsPrim.numV (JsNum.real 5)))])
      = ([[("id", JsVal.prim (JsPrim.numV (JsNum.real 1)))]], lessonNotFoundResp) := by
  refine ⟨?_, by decide, ?_⟩
  · exact ((put_nonempty_body_statuses
      [[("subject", JsVal.prim (JsPrim.strV "Math")),
        ("spaces", JsVal.prim (JsPrim.numV (JsNum.real 5)))]] "Math"
      [("spaces", JsVal.prim (JsPrim.numV (JsNum.real 5)))] (by decide)).2.1 (by decide)).1
  · exact (put_nonempty_body_statuses
      [[("id", JsVal.prim (JsPrim.numV (JsNum.real 1)))]] "9"
      [("spaces", JsVal.prim (JsPrim.numV (JsNum.real 5)))] (by decide)).2.2.1 (by decide)

/-- C7: a successful `PUT /lessons/:subject` with body `{spaces: 3}` is a
field-by-field merge: the store after the update is the store before it with
exactly the first matching document rewritten; in that document `spaces` now
holds 3 and every other field is unchanged, and every other document is
untouched. -/
theorem put_spaces_frame_update (col : List Doc) (ref : String)
    (h : col.any (subjectFilter ref) = true) :
    ∃ pre d rest,
      col = pre ++ d :: rest ∧
      (∀ e ∈ pre, subjectFilter ref e = false) ∧
      subjectFilter ref d = true ∧
      (putLessonA col ref (some [("spaces", JsVal.prim (JsPrim.numV (JsNum.real 3)))])).1
        = pre ++ setField d "spaces" (JsVal.prim (JsPrim.numV (JsNum.real 3))) :: rest ∧
      (putLessonA col ref (some [("spaces", JsVal.prim (JsPrim.numV (JsNum.real 3)))])).2.status
        = 200 ∧
      getField? (setField d "spaces" (JsVal.prim (JsPrim.numV (JsNum.real 3)))) "spaces"
        = some (JsVal.prim (JsPrim.numV (JsNum.real 3))) ∧
      (∀ k, k ≠ "spaces" →
        getField? (setField d "spaces" (JsVal.prim (JsPrim.numV (JsNum.real 3)))) k
          = getField? d k) := by
  obtain ⟨pre, d, rest, hcol, hpre, hd, hup⟩ :=
    updateOne_of_match col (subjectFilter ref)
      [("spaces", JsVal.prim (JsPrim.numV (JsNum.real 3)))] h
  refine ⟨pre, d, rest, hcol, hpre, hd, ?_, ?_, ?_, ?_⟩
  · simp [putLessonA, hup, applySet_single]
  · simp [putLessonA, hup, lessonUpdatedResp]
  · simp [getField?_setField]
  · intro k hk
    rw [getField?_setField, if_neg (fun hs2 => hk hs2.symm)]

/-- Witness for C7 at a concrete two-lesson store. -/
theorem put_spaces_frame_update_witness :
    ∃ pre d rest,
      ([[("subject", JsVal.prim (JsPrim.strV "Music")),
         ("location", JsVal.prim (JsPrim.strV "Leeds")),
         ("spaces", JsVal.prim (JsPrim.numV (JsNum.real 9)))],
        [("subject", JsVal.prim (JsPrim.strV "Drama"))]] : List Doc)
        = pre ++ d :: rest ∧
      (∀ e ∈ pre, subjectFilter "Music" e = false) ∧
      subjectFilter "Music" d = true ∧
      (putLessonA [[("subject", JsVal.prim (JsPrim.strV "Music")),
                    ("location", JsVal.prim (JsPrim.strV "Leeds")),
                    ("spaces", JsVal.prim (JsPrim.numV (JsNum.real 9)))],
                   [("subject", JsVal.prim (JsPrim.strV "Drama"))]] "Music"
          (some [("spaces", JsVal.prim (JsPrim.numV (JsNum.real 3)))])).1
        = pre ++ setField d "spaces" (JsVal.prim (JsPrim.numV (JsNum.real 3))) :: rest ∧
      (putLessonA [[("subject", JsVal.prim (JsPrim.strV "Music")),
                    ("location", JsVal.prim (JsPrim.strV "Leeds")),
                    ("spaces", JsVal.prim (JsPrim.numV (JsNum.real 9)))],
                   [("subject", JsVal.prim (JsPrim.strV "Drama"))]] "Music"
          (some [("spaces", JsVal.prim (JsPrim.numV (JsNum.real 3)))])).2.status = 200 ∧
      getField? (setField d "spaces" (JsVal.prim (JsPrim.numV (JsNum.real 3)))) "spaces"
        = some (JsVal.prim (JsPrim.numV (JsNum.real 3))) ∧
      (∀ k, k ≠ "spaces" →
        getField? (setField d "spaces" (JsVal.prim (JsPrim.numV (JsNum.real 3)))) k
          = getField? d k) :=
  put_spaces_frame_update
    [[("subject", JsVal.prim (JsPrim.strV "Music")),
      ("location", JsVal.prim (JsPrim.strV "Leeds")),
      ("spaces", JsVal.prim (JsPrim.numV (JsNum.real 9)))],
     [("subject", JsVal.prim (JsPrim.strV "Drama"))]] "Music" (by decide)

/-- C8: for every request under the `/images` prefix, existence is checked
before static transfer: a missing file yields the structured 404 whose JSON
body carries an `error` key (the static handler is never reached), and an
existing file is served with status 200 and its exact bytes — both for the
`imageCheckMiddleware` pipeline of revision A and for the
`GET /images/:filename` route of revisions B and C. -/
theorem images_existence_gate (dir : FileDir) (p : String)
    (hp : jsStartsWith p "/images/" = true) :
    ((fileBytes? dir (strDrop p 8)).isNone = true →
        imagesMiddlewareA dir p = some imageNotFoundResp)
    ∧ (∀ bs, fileBytes? dir (strDrop p 8) = some bs →
        imagesMiddlewareA dir p = some (Resp.mk 200 (RespBody.fileB bs)))
    ∧ imageNotFoundResp.status = 404
    ∧ (∃ e, imageNotFoundResp.body = RespBody.jsonB e ∧ (getField? e "error").isSome = true)
    ∧ (∀ fn, (fileBytes? dir fn).isNone = true → imagesRoute dir fn = imageNotFoundResp)
    ∧ (∀ fn bs, fileBytes? dir fn = some bs →
        imagesRoute dir fn = Resp.mk 200 (RespBody.fileB bs)) := by
  refine ⟨?_, ?_, rfl, ⟨_, rfl, rfl⟩, ?_, ?_⟩
  · intro h
    rw [Option.isNone_iff_eq_none] at h
    simp [imagesMiddlewareA, hp, h]
  · intro bs h
    simp [imagesMiddlewareA, hp, h]
  · intro fn h
    rw [Option.isNone_iff_eq_none] at h
    simp [imagesRoute, h]
  · intro fn bs h
    simp [imagesRoute, h]

/-- Witness for C8: a one-file images directory, queried for a missing and
for the existing file. -/
theorem images_existence_gate_witness :
    imagesMiddlewareA [("cat.png", [9, 8])] "/images/dog.png" = some imageNotFoundResp
    ∧ imagesMiddlewareA [("cat.png", [9, 8])] "/images/cat.png"
        = some (Resp.mk 200 (RespBody.fileB [9, 8]))
    ∧ imagesRoute [("cat.png", [9, 8])] "dog.png" = imageNotFoundResp
    ∧ imagesRoute [("cat.png", [9, 8])] "cat.png"
        = Resp.mk 200 (RespBody.fileB [9, 8]) := by
  have h1 := images_existence_gate [("cat.png", [9, 8])] "/images/dog.png" (by decide)
  have h2 := images_existence_gate [("cat.png", [9, 8])] "/images/cat.png" (by decide)
  exact ⟨h1.1 (by decide), h2.2.1 [9, 8] (by decide),
    h1.2.2.2.2.1 "dog.png" (by decide), h1.2.2.2.2.2 "cat.png" [9, 8] (by decide)⟩

/-- C9 (amended): in revision A (`src/server.js`) the logger middleware runs
before the image-existence check and before routing, so exactly the one log
line for the request is produced whatever the outcome; in revision C
(`src/unnamed/part_001`) the frontend static middleware precedes the logger,
so the log line is produced exactly for the requests that middleware does
not serve. -/
theorem logging_runs_for_unserved_requests (imagesDir : FileDir) (st : StoreState)
    (req : Request) (now : Nat) (oid : String)
    (frontendDir imagesDirC : FileDir) (lessonsC : List Doc) :
    (appA imagesDir st req now oid).2.2 = [logLine now req]
    ∧ (staticLookup frontendDir req.path = none →
        (appC frontendDir imagesDirC lessonsC req now).2 = [logLine now req]) := by
  constructor
  · rcases h : imagesMiddlewareA imagesDir req.path with _ | r <;> simp [appA, h]
  · intro h
    simp [appC, h]

/-- Witness for C9 at a concrete request that revision C's frontend static
middleware does not serve. -/
theorem logging_runs_for_unserved_requests_witness :
    (appA [] ⟨[], []⟩ ⟨"GET", "/lessons", "::1", "/lessons", none, none⟩ 3 "x").2.2
        = [logLine 3 ⟨"GET", "/lessons", "::1", "/lessons", none, none⟩]
    ∧ (appC [("app.js", [1])] [] [] ⟨"GET", "/lessons", "::1", "/lessons", none, none⟩ 3).2
        = [logLine 3 ⟨"GET", "/lessons", "::1", "/lessons", none, none⟩] := by
  have h := logging_runs_for_unserved_requests [] ⟨[], []⟩
    ⟨"GET", "/lessons", "::1", "/lessons", none, none⟩ 3 "x" [("app.js", [1])] [] []
  exact ⟨h.1, h.2 (by decide)⟩

/-- Counterexample to C9 as stated: in revision C the frontend static
middleware is registered before the logger, so a request it serves — here
`GET /app.js` with `app.js` present in the frontend bundle — is answered
with the file (status 200) while the produced log is empty: no log line is
emitted for this request. -/
theorem logging_skipped_for_static_cex :
    (appC [("app.js", [1, 2])] [] [] ⟨"GET", "/app.js", "::1", "/app.js", none, none⟩ 0).2 = []
    ∧ (appC [("app.js", [1, 2])] [] [] ⟨"GET", "/app.js", "::1", "/app.js", none, none⟩ 0).1
        = Resp.mk 200 (RespBody.fileB [1, 2]) := by decide

/-- C10: in the id-keyed revision, a `PUT /lessons/:ref` with a non-numeric
ref and a non-empty body is never a 400 for the identifier and never
throws: `Number()` coerces the ref to `NaN`, which matches no stored lesson
(ids are proper numbers), so the handler answers 404 with the store
unchanged. -/
theorem put_nonnumeric_id_404 (col : List Doc) (idParam : String) (u : Doc)
    (hu : u ≠ []) (hnan : jsNumberOfString idParam = JsNum.nan)
    (hids : ∀ d ∈ col, getField? d "id" ≠ some (JsVal.prim (JsPrim.numV JsNum.nan))) :
    putLessonB col idParam (some u) = (col, lessonNotFoundResp) := by
  have hlen : ¬ u.length = 0 := by simpa using hu
  have hnone : ∀ d ∈ col, idFilter (jsNumberOfString idParam) d = false := by
    intro d hd
    simp [idFilter, hnan, hids d hd]
  have hup := updateOne_of_no_match col (idFilter (jsNumberOfString idParam)) u hnone
  simp [putLessonB, hlen, hup]

/-- Witness for C10: `PUT /lessons/abc` with body `{spaces: 3}` on a store
holding the lesson with numeric id 1 answers 404 and leaves the store
unchanged. -/
theorem put_nonnumeric_id_404_witness :
    putLessonB [[("id", JsVal.prim (JsPrim.numV (JsNum.real 1))),
                 ("subject", JsVal.prim (JsPrim.strV "Math"))]] "abc"
        (some [("spaces", JsVal.prim (JsPrim.numV (JsNum.real 3)))])
      = ([[("id", JsVal.prim (JsPrim.numV (JsNum.real 1))),
           ("subject", JsVal.prim (JsPrim.strV "Math"))]], lessonNotFoundResp) :=
  put_nonnumeric_id_404
    [[("id", JsVal.prim (JsPrim.numV (JsNum.real 1))),
      ("subject", JsVal.prim (JsPrim.strV "Math"))]] "abc"
    [("spaces", JsVal.prim (JsPrim.numV (JsNum.real 3)))]
    (by decide) (by decide) (by decide)
